import Mathlib

/-!
Verification of the books CRUD backend (Express server with a mock-data
fallback store). The definitions below are a shallow embedding of the
request handlers in the backend source file: the fallback (mock-data)
branches are translated directly from the code; the relational branches
delegate to a PostgreSQL pool, so the row-level effect of each SQL
statement is modelled from the spec where marked.

JSON string fields that may be absent (JS `undefined`) are modelled as
`Option String`, with `none` standing for an absent/undefined value.
-/

/-- A book record. Field values are `Option String` because a JS object
field can hold `undefined` (for example after a PUT whose body omits the
field); `none` models undefined/absent, `some s` a string value. -/
structure Book where
  id : Int
  title : Option String
  author : Option String
  category : Option String
  photo : Option String
  pdf : Option String
deriving DecidableEq, Repr

/-- The JSON request body of POST /books and PUT /books/:id after
destructuring `{ title, author, category, photo, pdf }`: each field is
the string sent, or `none` when the key is absent. -/
structure BookBody where
  title : Option String
  author : Option String
  category : Option String
  photo : Option String
  pdf : Option String
deriving DecidableEq, Repr

/-- A JSON response body: a list of books, a single book, a
`{ message: ... }` object, or an `{ error: ... }` object. -/
inductive Body where
  | books (bs : List Book)
  | book (b : Book)
  | message (s : String)
  | error (s : String)
deriving DecidableEq, Repr

/-- An HTTP response: status code and JSON body. -/
structure Resp where
  status : Nat
  body : Body
deriving DecidableEq, Repr

/-- JS truthiness of a string-or-undefined value: `undefined` and the
empty string are falsy, every other string is truthy (mirrors `!title`
checks in the handlers). -/
def truthy : Option String → Bool
  | none => false
  | some s => !(s == "")

/-- `v || ''` on a string-or-undefined value: the empty string when `v`
is falsy, otherwise `v` itself (and `"" || '' = ''` as well, so this is
`getD ""`). -/
def orEmptyStr : Option String → String
  | none => ""
  | some s => s

/-- `Math.max(...books.map(b => b.id), 0)` from the POST handler. -/
def maxId (books : List Book) : Int :=
  (books.map (fun b => b.id)).foldr max 0

/-- Longest leading run of decimal digits, as a number; `none` when the
input does not start with a digit (parseInt returns NaN there). -/
def parseDigits (cs : List Char) : Option Nat :=
  let ds := cs.takeWhile Char.isDigit
  if ds.isEmpty then none
  else some (ds.foldl (fun n c => 10 * n + (c.toNat - 48)) 0)

/-- JS `parseInt(s)` (radix 10): skip leading whitespace, optional sign,
then the longest leading digit run; `none` models NaN. The `0x` hex
prefix form of parseInt is not modelled (no claim depends on it). -/
def parseIntJS (s : String) : Option Int :=
  match s.toList.dropWhile Char.isWhitespace with
  | '-' :: rest => (parseDigits rest).map (fun n => -(n : Int))
  | '+' :: rest => (parseDigits rest).map (fun n => (n : Int))
  | rest => (parseDigits rest).map (fun n => (n : Int))

/-- `books.findIndex(b => b.id === id)` where `id` is the parseInt
result: `none` models -1 (note NaN === x is false for every x, so a
failed parse matches no element). -/
def findIndexById (pid : Option Int) : List Book → Option Nat
  | [] => none
  | b :: rest =>
      if pid == some b.id then some 0
      else (findIndexById pid rest).map (fun i => i + 1)

/-- `{ ...old, title, author, category, photo, pdf }` with the five
shorthand fields taken from the request body: keeps `id`, overwrites all
five mutable fields with the body values (possibly `undefined`). The
relational UPDATE statement sets the same five columns from the same
parameters, so it produces the same record shape. -/
def replaceFields (old : Book) (body : BookBody) : Book :=
  { id := old.id, title := body.title, author := body.author,
    category := body.category, photo := body.photo, pdf := body.pdf }

/-- The `newBook` object literal of the fallback POST branch: id is
`Math.max(...ids, 0) + 1`, title and author come from the (validated)
body, and the three optional fields default to the empty string via
`|| ''`. -/
def newBookFor (body : BookBody) (s : List Book) : Book :=
  { id := maxId s + 1, title := body.title, author := body.author,
    category := some (orEmptyStr body.category),
    photo := some (orEmptyStr body.photo),
    pdf := some (orEmptyStr body.pdf) }

/-- The four seeded records of the fallback store (`mockBooks`). -/
def mockBooks : List Book :=
  [ { id := 1, title := some "Clean Code", author := some "Robert Martin",
      category := some "Technology", photo := some "", pdf := some "" },
    { id := 2, title := some "Sapiens", author := some "Yuval Harari",
      category := some "History", photo := some "", pdf := some "" },
    { id := 3, title := some "1984", author := some "George Orwell",
      category := some "Fiction", photo := some "", pdf := some "" },
    { id := 4, title := some "The Art of War", author := some "Sun Tzu",
      category := some "Philosophy", photo := some "", pdf := some "" } ]

/-- Modelled from the spec: the relational store. The actual store is an
external PostgreSQL database reached through `pool.query`, not code of
this repository; per the spec it holds the book rows and assigns ids by
auto-increment, so it is modelled as the current rows plus the next
auto-increment id. Timestamps are not modelled (no claim mentions them). -/
structure RelDB where
  rows : List Book
  nextId : Int
deriving DecidableEq, Repr

/-- A throwaway relational state for fallback-mode wrappers (the
relational store is never consulted in fallback mode). -/
def emptyDB : RelDB := { rows := [], nextId := 1 }

/-- Modelled from the spec: `SELECT * FROM books WHERE id = $1` returns
the rows whose id equals the parameter; a NaN parameter (failed parse)
matches no row. -/
def dbSelectById (pid : Option Int) (rows : List Book) : List Book :=
  rows.filter (fun b => pid == some b.id)

/-- Modelled from the spec: `INSERT ... VALUES ($1..$5) RETURNING *`
stores a new row under the next auto-increment id, with each column set
to the corresponding parameter (an undefined parameter becomes NULL),
and returns the stored row. -/
def dbInsert (body : BookBody) (db : RelDB) : Book × RelDB :=
  let row : Book :=
    { id := db.nextId, title := body.title, author := body.author,
      category := body.category, photo := body.photo, pdf := body.pdf }
  (row, { rows := db.rows ++ [row], nextId := db.nextId + 1 })

/-- Modelled from the spec: `UPDATE books SET ... WHERE id = $6
RETURNING *` overwrites the five mutable columns of every row whose id
matches and returns the updated rows (empty when none matched). -/
def dbUpdateById (pid : Option Int) (body : BookBody) (rows : List Book) :
    List Book × List Book :=
  (rows.map (fun b => if pid == some b.id then replaceFields b body else b),
   (rows.filter (fun b => pid == some b.id)).map (fun b => replaceFields b body))

/-- Modelled from the spec: `DELETE FROM books WHERE id = $1 RETURNING *`
removes every row whose id matches and returns the removed rows. -/
def dbDeleteById (pid : Option Int) (rows : List Book) : List Book × List Book :=
  (rows.filter (fun b => !(pid == some b.id)),
   rows.filter (fun b => pid == some b.id))

/-- GET /books in fallback mode: returns the in-memory collection
verbatim with status 200 (`res.json(mockBooks)`). -/
def getBooks (store : List Book) : Resp :=
  { status := 200, body := Body.books store }

/-- GET /books/:id, both modes. `useMockData` is the process-wide mode
flag; `store` is the fallback collection; `db` the relational store. -/
def getBooksIdFull (useMockData : Bool) (idStr : String) (store : List Book)
    (db : RelDB) : Resp :=
  let pid := parseIntJS idStr
  if useMockData then
    match store.find? (fun b => pid == some b.id) with
    | none => { status := 404, body := Body.message "Book not found" }
    | some b => { status := 200, body := Body.book b }
  else
    match (dbSelectById pid db.rows).head? with
    | none => { status := 404, body := Body.message "Book not found" }
    | some b => { status := 200, body := Body.book b }

/-- GET /books/:id in fallback mode. -/
def getBooksId (idStr : String) (store : List Book) : Resp :=
  getBooksIdFull true idStr store emptyDB

/-- POST /books, both modes. The title/author validation runs before the
mode branch, exactly as in the source. Returns the response, the new
fallback store and the new relational store. -/
def postBooksFull (useMockData : Bool) (body : BookBody) (store : List Book)
    (db : RelDB) : Resp × List Book × RelDB :=
  if !(truthy body.title) || !(truthy body.author) then
    ({ status := 400, body := Body.error "Title and author are required" },
     store, db)
  else if useMockData then
    let newBook : Book := newBookFor body store
    ({ status := 201, body := Body.book newBook }, store ++ [newBook], db)
  else
    let (row, db2) := dbInsert body db
    ({ status := 201, body := Body.book row }, store, db2)

/-- POST /books in fallback mode. -/
def postBooks (body : BookBody) (store : List Book) : Resp × List Book :=
  ((postBooksFull true body store emptyDB).1,
   (postBooksFull true body store emptyDB).2.1)

/-- PUT /books/:id, both modes. In fallback mode: findIndex, 404 when -1,
else in-place replacement of the record by spread-plus-overwrite. The
`none` fallback of the inner match is unreachable (a found index is in
bounds) and only satisfies the type checker. -/
def putBooksIdFull (useMockData : Bool) (idStr : String) (body : BookBody)
    (store : List Book) (db : RelDB) : Resp × List Book × RelDB :=
  let pid := parseIntJS idStr
  if useMockData then
    match findIndexById pid store with
    | none => ({ status := 404, body := Body.message "Book not found" }, store, db)
    | some i =>
      match store[i]? with
      | some old =>
        let nb := replaceFields old body
        ({ status := 200, body := Body.book nb }, store.set i nb, db)
      | none => ({ status := 404, body := Body.message "Book not found" }, store, db)
  else
    let (rows2, ret) := dbUpdateById pid body db.rows
    match ret.head? with
    | none => ({ status := 404, body := Body.message "Book not found" }, store,
               { rows := rows2, nextId := db.nextId })
    | some b => ({ status := 200, body := Body.book b }, store,
                 { rows := rows2, nextId := db.nextId })

/-- PUT /books/:id in fallback mode. -/
def putBooksId (idStr : String) (body : BookBody) (store : List Book) :
    Resp × List Book :=
  ((putBooksIdFull true idStr body store emptyDB).1,
   (putBooksIdFull true idStr body store emptyDB).2.1)

/-- DELETE /books/:id, both modes. In fallback mode: findIndex, 404 when
-1, else `splice(index, 1)` and a fixed success message (the removed
record is only logged, never returned). -/
def deleteBooksIdFull (useMockData : Bool) (idStr : String)
    (store : List Book) (db : RelDB) : Resp × List Book × RelDB :=
  let pid := parseIntJS idStr
  if useMockData then
    match findIndexById pid store with
    | none => ({ status := 404, body := Body.message "Book not found" }, store, db)
    | some i =>
      ({ status := 200, body := Body.message "Book deleted successfully" },
       store.eraseIdx i, db)
  else
    let (rows2, ret) := dbDeleteById pid db.rows
    match ret.head? with
    | none => ({ status := 404, body := Body.message "Book not found" }, store,
               { rows := rows2, nextId := db.nextId })
    | some _ => ({ status := 200, body := Body.message "Book deleted successfully" },
                 store, { rows := rows2, nextId := db.nextId })

/-- DELETE /books/:id in fallback mode. -/
def deleteBooksId (idStr : String) (store : List Book) : Resp × List Book :=
  ((deleteBooksIdFull true idStr store emptyDB).1,
   (deleteBooksIdFull true idStr store emptyDB).2.1)

/-- The fallback stores reachable from the seeded `mockBooks` by any
sequence of POST, PUT and DELETE requests. -/
inductive Reachable : List Book → Prop
  | seed : Reachable mockBooks
  | post (body : BookBody) (s : List Book) :
      Reachable s → Reachable (postBooks body s).2
  | put (idStr : String) (body : BookBody) (s : List Book) :
      Reachable s → Reachable (putBooksId idStr body s).2
  | del (idStr : String) (s : List Book) :
      Reachable s → Reachable (deleteBooksId idStr s).2

/-- The ids of the stored books are strictly increasing front to back. -/
def sortedIds (s : List Book) : Prop :=
  List.Sorted (fun a b => a < b) (s.map (fun b => b.id))

/-- Every stored id is at least 1. -/
def idsPos (s : List Book) : Prop := ∀ b ∈ s, 1 ≤ b.id

/-- Every stored record has a truthy (present, non-empty) title and
author. -/
def goodStore (s : List Book) : Prop :=
  ∀ b ∈ s, truthy b.title = true ∧ truthy b.author = true

/-! ### Helper lemmas -/

theorem set_self_of_getElem? {α : Type} {l : List α} {i : Nat} {a : α}
    (h : l[i]? = some a) : l.set i a = l := by
  induction l generalizing i with
  | nil => simp at h
  | cons x xs ih =>
    cases i with
    | zero => simp_all [List.set]
    | succ n => simp_all [List.set]

theorem findIndexById_eq_none {pid : Option Int} {s : List Book} :
    findIndexById pid s = none ↔ ∀ b ∈ s, pid ≠ some b.id := by
  induction s with
  | nil => simp [findIndexById]
  | cons x xs ih =>
    by_cases h : pid = some x.id
    · simp [findIndexById, h]
    · simp [findIndexById, h, ih]

theorem findIndexById_some {pid : Option Int} {s : List Book} {i : Nat}
    (h : findIndexById pid s = some i) :
    ∃ b, s[i]? = some b ∧ (pid == some b.id) = true := by
  induction s generalizing i with
  | nil => simp [findIndexById] at h
  | cons x xs ih =>
    by_cases hx : (pid == some x.id) = true
    · simp [findIndexById, hx] at h
      subst h
      exact ⟨x, by simp, hx⟩
    · simp only [Bool.not_eq_true] at hx
      simp [findIndexById, hx] at h
      obtain ⟨j, hj, rfl⟩ := h
      obtain ⟨b, hb, hbeq⟩ := ih hj
      exact ⟨b, by simpa using hb, hbeq⟩

theorem mem_le_maxId {b : Book} {s : List Book} (h : b ∈ s) :
    b.id ≤ maxId s := by
  induction s with
  | nil => simp at h
  | cons x xs ih =>
    rcases List.mem_cons.1 h with rfl | hmem
    · exact le_max_left _ _
    · exact le_trans (ih hmem) (le_max_right _ _)

theorem maxId_nonneg (s : List Book) : 0 ≤ maxId s := by
  induction s with
  | nil => simp [maxId]
  | cons x xs ih =>
    exact le_trans ih (le_max_right _ _)

theorem postBooks_invalid {body : BookBody} {s : List Book}
    (h : truthy body.title = false ∨ truthy body.author = false) :
    postBooks body s =
      ({ status := 400, body := Body.error "Title and author are required" }, s) := by
  rcases h with h | h <;> simp [postBooks, postBooksFull, h]

theorem postBooks_valid {body : BookBody} {s : List Book}
    (ht : truthy body.title = true) (ha : truthy body.author = true) :
    postBooks body s =
      ({ status := 201, body := Body.book (newBookFor body s) },
       s ++ [newBookFor body s]) := by
  simp [postBooks, postBooksFull, ht, ha]

theorem putBooksId_notfound {idStr : String} {body : BookBody} {s : List Book}
    (h : findIndexById (parseIntJS idStr) s = none) :
    putBooksId idStr body s =
      ({ status := 404, body := Body.message "Book not found" }, s) := by
  simp [putBooksId, putBooksIdFull, h]

theorem putBooksId_found {idStr : String} {body : BookBody} {s : List Book}
    {i : Nat} {old : Book} (h : findIndexById (parseIntJS idStr) s = some i)
    (hold : s[i]? = some old) :
    putBooksId idStr body s =
      ({ status := 200, body := Body.book (replaceFields old body) },
       s.set i (replaceFields old body)) := by
  simp [putBooksId, putBooksIdFull, h, hold]

theorem deleteBooksId_notfound {idStr : String} {s : List Book}
    (h : findIndexById (parseIntJS idStr) s = none) :
    deleteBooksId idStr s =
      ({ status := 404, body := Body.message "Book not found" }, s) := by
  simp [deleteBooksId, deleteBooksIdFull, h]

theorem deleteBooksId_found {idStr : String} {s : List Book} {i : Nat}
    (h : findIndexById (parseIntJS idStr) s = some i) :
    deleteBooksId idStr s =
      ({ status := 200, body := Body.message "Book deleted successfully" },
       s.eraseIdx i) := by
  simp [deleteBooksId, deleteBooksIdFull, h]

theorem putBooksId_map_id (idStr : String) (body : BookBody) (s : List Book) :
    (putBooksId idStr body s).2.map (fun b => b.id) = s.map (fun b => b.id) := by
  cases h : findIndexById (parseIntJS idStr) s with
  | none => rw [putBooksId_notfound h]
  | some i =>
    obtain ⟨old, hold, -⟩ := findIndexById_some h
    rw [putBooksId_found h hold]
    have hid : (replaceFields old body).id = old.id := rfl
    show (s.set i (replaceFields old body)).map (fun b => b.id) = _
    rw [List.map_set, hid]
    exact set_self_of_getElem? (by simp [hold])

theorem deleteBooksId_snd_sublist (idStr : String) (s : List Book) :
    ((deleteBooksId idStr s).2).Sublist s := by
  cases h : findIndexById (parseIntJS idStr) s with
  | none =>
    rw [deleteBooksId_notfound h]
  | some i =>
    rw [deleteBooksId_found h]
    exact List.eraseIdx_sublist s i

theorem sortedIds_post (body : BookBody) {s : List Book} (h : sortedIds s) :
    sortedIds (postBooks body s).2 := by
  by_cases ht : truthy body.title = true
  · by_cases ha : truthy body.author = true
    · rw [postBooks_valid ht ha]
      show List.Sorted _ ((s ++ [newBookFor body s]).map (fun b => b.id))
      rw [List.map_append]
      refine List.pairwise_append.2 ⟨h, by simp, ?_⟩
      intro a ha' b hb
      simp only [List.map_cons, List.map_nil, List.mem_singleton] at hb
      subst hb
      obtain ⟨bk, hbk, rfl⟩ := List.mem_map.1 ha'
      exact lt_of_le_of_lt (mem_le_maxId hbk) (lt_add_one _)
    · rw [postBooks_invalid (Or.inr (by simpa using ha))]
      exact h
  · rw [postBooks_invalid (Or.inl (by simpa using ht))]
    exact h

theorem sortedIds_put (idStr : String) (body : BookBody) {s : List Book}
    (h : sortedIds s) : sortedIds (putBooksId idStr body s).2 := by
  unfold sortedIds at h ⊢
  rw [putBooksId_map_id]
  exact h

theorem sortedIds_del (idStr : String) {s : List Book} (h : sortedIds s) :
    sortedIds (deleteBooksId idStr s).2 :=
  List.Pairwise.sublist
    (List.Sublist.map _ (deleteBooksId_snd_sublist idStr s)) h

theorem idsPos_post (body : BookBody) {s : List Book} (h : idsPos s) :
    idsPos (postBooks body s).2 := by
  by_cases ht : truthy body.title = true
  · by_cases ha : truthy body.author = true
    · rw [postBooks_valid ht ha]
      intro b hb
      rcases List.mem_append.1 hb with hb | hb
      · exact h b hb
      · simp only [List.mem_singleton] at hb
        subst hb
        show 1 ≤ maxId s + 1
        have := maxId_nonneg s
        omega
    · rw [postBooks_invalid (Or.inr (by simpa using ha))]
      exact h
  · rw [postBooks_invalid (Or.inl (by simpa using ht))]
    exact h

theorem idsPos_put (idStr : String) (body : BookBody) {s : List Book}
    (h : idsPos s) : idsPos (putBooksId idStr body s).2 := by
  intro b hb
  have hmem : b.id ∈ (putBooksId idStr body s).2.map (fun b => b.id) :=
    List.mem_map_of_mem _ hb
  rw [putBooksId_map_id] at hmem
  obtain ⟨b0, hb0, heq⟩ := List.mem_map.1 hmem
  rw [← heq]
  exact h b0 hb0

theorem idsPos_del (idStr : String) {s : List Book} (h : idsPos s) :
    idsPos (deleteBooksId idStr s).2 := fun b hb =>
  h b ((deleteBooksId_snd_sublist idStr s).subset hb)

theorem reachable_sortedIds {s : List Book} (h : Reachable s) : sortedIds s := by
  induction h with
  | seed => unfold sortedIds; decide
  | post body s _ ih => exact sortedIds_post body ih
  | put idStr body s _ ih => exact sortedIds_put idStr body ih
  | del idStr s _ ih => exact sortedIds_del idStr ih

theorem reachable_idsPos {s : List Book} (h : Reachable s) : idsPos s := by
  induction h with
  | seed => unfold idsPos; decide
  | post body s _ ih => exact idsPos_post body ih
  | put idStr body s _ ih => exact idsPos_put idStr body ih
  | del idStr s _ ih => exact idsPos_del idStr ih

theorem goodStore_post (body : BookBody) {s : List Book} (h : goodStore s) :
    goodStore (postBooks body s).2 := by
  by_cases ht : truthy body.title = true
  · by_cases ha : truthy body.author = true
    · rw [postBooks_valid ht ha]
      intro b hb
      rcases List.mem_append.1 hb with hb | hb
      · exact h b hb
      · simp only [List.mem_singleton] at hb
        subst hb
        exact ⟨ht, ha⟩
    · rw [postBooks_invalid (Or.inr (by simpa using ha))]
      exact h
  · rw [postBooks_invalid (Or.inl (by simpa using ht))]
    exact h

theorem goodStore_put (idStr : String) {body : BookBody} {s : List Book}
    (ht : truthy body.title = true) (ha : truthy body.author = true)
    (h : goodStore s) : goodStore (putBooksId idStr body s).2 := by
  cases hf : findIndexById (parseIntJS idStr) s with
  | none =>
    rw [putBooksId_notfound hf]
    exact h
  | some i =>
    obtain ⟨old, hold, -⟩ := findIndexById_some hf
    rw [putBooksId_found hf hold]
    intro b hb
    rcases List.mem_or_eq_of_mem_set hb with hb | rfl
    · exact h b hb
    · exact ⟨ht, ha⟩

theorem goodStore_del (idStr : String) {s : List Book} (h : goodStore s) :
    goodStore (deleteBooksId idStr s).2 := fun b hb =>
  h b ((deleteBooksId_snd_sublist idStr s).subset hb)

theorem foldr_max_le {m : Int} {l : List Int} (h0 : 0 ≤ m)
    (h : ∀ x ∈ l, x ≤ m) : l.foldr max 0 ≤ m := by
  induction l with
  | nil => simpa using h0
  | cons x xs ih =>
    simp only [List.foldr_cons]
    exact max_le (h x (List.mem_cons_self _ _))
      (ih fun y hy => h y (List.mem_cons_of_mem _ hy))

/-! ### Claims -/

/-- Claim C1: for every request body, create (POST /books) fails with a
validation error (400) if and only if title or author is missing or
empty; when both are non-empty it stores a new record and returns it
with status 201. The validation runs before the mode branch, so the
outcome is the same in fallback and relational mode (the mode `mock` is
universally quantified and the rejection condition does not mention it). -/
theorem create_validation_C1 (mock : Bool) (body : BookBody) (store : List Book)
    (db : RelDB) :
    ((postBooksFull mock body store db).1.status = 400 ↔
      ¬ (truthy body.title = true ∧ truthy body.author = true)) ∧
    (¬ (truthy body.title = true ∧ truthy body.author = true) →
      postBooksFull mock body store db =
        ({ status := 400, body := Body.error "Title and author are required" },
         store, db)) ∧
    (truthy body.title = true ∧ truthy body.author = true →
      ∃ nb, nb.title = body.title ∧ nb.author = body.author ∧
        postBooksFull mock body store db =
          ({ status := 201, body := Body.book nb },
           if mock then store ++ [nb] else store,
           if mock then db
           else { rows := db.rows ++ [nb], nextId := db.nextId + 1 })) := by
  by_cases ht : truthy body.title = true
  · by_cases ha : truthy body.author = true
    · refine ⟨?_, ?_, ?_⟩
      · cases mock <;> simp [postBooksFull, dbInsert, ht, ha]
      · intro hc
        exact absurd ⟨ht, ha⟩ hc
      · intro _
        cases mock
        · exact ⟨(dbInsert body db).1, rfl, rfl, by simp [postBooksFull, dbInsert, ht, ha]⟩
        · exact ⟨newBookFor body store, rfl, rfl, by simp [postBooksFull, ht, ha]⟩
    · simp only [Bool.not_eq_true] at ha
      refine ⟨?_, ?_, ?_⟩
      · cases mock <;> simp [postBooksFull, ht, ha]
      · intro _
        cases mock <;> simp [postBooksFull, ht, ha]
      · intro hc
        rw [ha] at hc
        simp at hc
  · simp only [Bool.not_eq_true] at ht
    refine ⟨?_, ?_, ?_⟩
    · cases mock <;> simp [postBooksFull, ht]
    · intro _
      cases mock <;> simp [postBooksFull, ht]
    · intro hc
      rw [ht] at hc
      simp at hc

/-- Witness for C1: the fallback store rejects an empty title with 400
and keeps the state; the relational mode accepts a valid body with 201. -/
theorem create_validation_C1_witness :
    (postBooksFull true
        { title := some "", author := some "X", category := none,
          photo := none, pdf := none } mockBooks emptyDB =
      ({ status := 400, body := Body.error "Title and author are required" },
       mockBooks, emptyDB)) ∧
    ∃ nb, nb.title = some "Dune" ∧ nb.author = some "Herbert" ∧
      postBooksFull false
          { title := some "Dune", author := some "Herbert", category := none,
            photo := none, pdf := none } mockBooks emptyDB =
        ({ status := 201, body := Body.book nb }, mockBooks,
         { rows := emptyDB.rows ++ [nb], nextId := emptyDB.nextId + 1 }) :=
  ⟨(create_validation_C1 true
      { title := some "", author := some "X", category := none,
        photo := none, pdf := none } mockBooks emptyDB).2.1 (by decide),
   (create_validation_C1 false
      { title := some "Dune", author := some "Herbert", category := none,
        photo := none, pdf := none } mockBooks emptyDB).2.2 (by decide)⟩

/-- Claim C2: for every reachable fallback-mode store state, GET /books
returns the stored collection verbatim with status 200 and its ids are
in strictly ascending order; the empty store yields the empty sequence,
and the fresh (seeded) store yields exactly the four seeded records with
ids 1,2,3,4 in that order. -/
theorem listAll_sorted_C2 {s : List Book} (h : Reachable s) :
    getBooks s = { status := 200, body := Body.books s } ∧
    List.Sorted (fun a b => a < b) (s.map (fun b => b.id)) ∧
    getBooks [] = { status := 200, body := Body.books [] } ∧
    getBooks mockBooks = { status := 200, body := Body.books mockBooks } ∧
    mockBooks.map (fun b => b.id) = [1, 2, 3, 4] :=
  ⟨rfl, reachable_sortedIds h, rfl, rfl, by decide⟩

/-- Witness for C2, at the seeded store. -/
theorem listAll_sorted_C2_witness :
    getBooks mockBooks = { status := 200, body := Body.books mockBooks } ∧
    List.Sorted (fun a b => a < b) (mockBooks.map (fun b => b.id)) ∧
    getBooks [] = { status := 200, body := Body.books [] } ∧
    getBooks mockBooks = { status := 200, body := Body.books mockBooks } ∧
    mockBooks.map (fun b => b.id) = [1, 2, 3, 4] :=
  listAll_sorted_C2 Reachable.seed

/-- Claim C3: in fallback mode, a successful create assigns the new
record id `Math.max(...ids, 0) + 1`; on every store the program can
reach this equals (maximum existing id, or 0 when the store is empty)
plus one, the next id after the four seeds is 5, and the new id is
strictly greater than every stored id, so gaps left by deletions are
never reused while a higher id exists. -/
theorem create_id_C3 {s : List Book} (h : Reachable s) (body : BookBody)
    (ht : truthy body.title = true) (ha : truthy body.author = true) :
    ∃ nb, (postBooks body s).1 = { status := 201, body := Body.book nb } ∧
      nb.id = maxId s + 1 ∧
      (s = [] → nb.id = 1) ∧
      (∀ m ∈ s.map (fun b => b.id),
        (∀ x ∈ s.map (fun b => b.id), x ≤ m) → nb.id = m + 1) ∧
      (∀ b ∈ s, b.id < nb.id) ∧
      (s = mockBooks → nb.id = 5) := by
  refine ⟨newBookFor body s,
    by rw [postBooks_valid ht ha], rfl, ?_, ?_, ?_, ?_⟩
  · rintro rfl
    rfl
  · intro m hm hall
    obtain ⟨bm, hbm, rfl⟩ := List.mem_map.1 hm
    have h1 : maxId s ≤ bm.id := by
      have hpos : 1 ≤ bm.id := reachable_idsPos h bm hbm
      refine foldr_max_le (by omega) ?_
      intro x hx
      exact hall x hx
    have h2 : bm.id ≤ maxId s := mem_le_maxId hbm
    show maxId s + 1 = bm.id + 1
    omega
  · intro b hb
    exact lt_of_le_of_lt (mem_le_maxId hb) (lt_add_one _)
  · rintro rfl
    rfl

/-- Witness for C3: creating a valid book on the seeded store yields
id 5, greater than every seeded id. -/
theorem create_id_C3_witness :
    ∃ nb, (postBooks { title := some "Dune", author := some "Herbert",
                       category := none, photo := none, pdf := none }
        mockBooks).1 = { status := 201, body := Body.book nb } ∧
      nb.id = maxId mockBooks + 1 ∧
      (mockBooks = [] → nb.id = 1) ∧
      (∀ m ∈ mockBooks.map (fun b => b.id),
        (∀ x ∈ mockBooks.map (fun b => b.id), x ≤ m) → nb.id = m + 1) ∧
      (∀ b ∈ mockBooks, b.id < nb.id) ∧
      (mockBooks = mockBooks → nb.id = 5) :=
  create_id_C3 Reachable.seed
    { title := some "Dune", author := some "Herbert", category := none,
      photo := none, pdf := none } (by decide) (by decide)

/-- Claim C4: for every existing id, PUT /books/:id replaces all five
mutable fields (title, author, category, photo, pdf) of the stored
record with the values from the request body, keeping its id; a field
omitted from the body (here `none`, i.e. JS undefined) overwrites the
previous value with undefined rather than leaving it untouched
(replace, not merge), and the updated record is returned with 200. -/
theorem update_replace_C4 {idStr : String} {body : BookBody} {s : List Book}
    {i : Nat} (h : findIndexById (parseIntJS idStr) s = some i) :
    ∃ old, s[i]? = some old ∧
      putBooksId idStr body s =
        ({ status := 200,
           body := Body.book
             { id := old.id, title := body.title, author := body.author,
               category := body.category, photo := body.photo,
               pdf := body.pdf } },
         s.set i
           { id := old.id, title := body.title, author := body.author,
             category := body.category, photo := body.photo,
             pdf := body.pdf }) := by
  obtain ⟨old, hold, -⟩ := findIndexById_some h
  exact ⟨old, hold, putBooksId_found h hold⟩

/-- Witness for C4: PUT /books/2 on the seeded store with a body that
has only title and author overwrites category, photo and pdf of record
2 to undefined. -/
theorem update_replace_C4_witness :
    ∃ old, mockBooks[1]? = some old ∧
      putBooksId "2"
          { title := some "Dune 2", author := some "Herbert",
            category := none, photo := none, pdf := none } mockBooks =
        ({ status := 200,
           body := Body.book
             { id := old.id, title := some "Dune 2",
               author := some "Herbert", category := none, photo := none,
               pdf := none } },
         mockBooks.set 1
           { id := old.id, title := some "Dune 2", author := some "Herbert",
             category := none, photo := none, pdf := none }) :=
  update_replace_C4 (by decide)

/-- Claim C5 counterexample: the DELETE success response does not carry
the identity of the removed record. Deleting record 1 and deleting
record 2 from the seeded store both succeed (status 200) on distinct
records (the resulting stores differ), yet the two responses are the
same fixed `Book deleted successfully` message, so the response cannot
identify which record was removed. -/
theorem delete_identity_C5_counterexample :
    (deleteBooksId "1" mockBooks).1.status = 200 ∧
    (deleteBooksId "2" mockBooks).1.status = 200 ∧
    (deleteBooksId "1" mockBooks).2 ≠ (deleteBooksId "2" mockBooks).2 ∧
    (deleteBooksId "1" mockBooks).1 = (deleteBooksId "2" mockBooks).1 ∧
    (deleteBooksId "1" mockBooks).1.body =
      Body.message "Book deleted successfully" := by
  decide

/-- Claim C5 as amended: for every id, DELETE /books/:id fails with 404
and leaves the store unchanged when no record has that id; otherwise it
removes the first record with that id and returns 200 with a generic
success message (the same for every record), not the removed record
identity. -/
theorem delete_spec_C5 (idStr : String) (s : List Book) :
    ((¬ ∃ b ∈ s, parseIntJS idStr = some b.id) →
      deleteBooksId idStr s =
        ({ status := 404, body := Body.message "Book not found" }, s)) ∧
    ((∃ b ∈ s, parseIntJS idStr = some b.id) →
      ∃ i b, s[i]? = some b ∧ parseIntJS idStr = some b.id ∧
        deleteBooksId idStr s =
          ({ status := 200, body := Body.message "Book deleted successfully" },
           s.eraseIdx i)) := by
  constructor
  · intro hnone
    refine deleteBooksId_notfound (findIndexById_eq_none.2 ?_)
    intro b hb
    exact fun hc => hnone ⟨b, hb, hc⟩
  · intro hsome
    cases hf : findIndexById (parseIntJS idStr) s with
    | none =>
      obtain ⟨b, hb, hc⟩ := hsome
      exact absurd hc (findIndexById_eq_none.1 hf b hb)
    | some i =>
      obtain ⟨b, hb, hbeq⟩ := findIndexById_some hf
      exact ⟨i, b, hb, by simpa using hbeq, deleteBooksId_found hf⟩

/-- Witness for C5 (amended): DELETE /books/999 on the seeded store is a
404 that leaves the store unchanged; DELETE /books/3 removes record 3
and answers with the fixed success message. -/
theorem delete_spec_C5_witness :
    deleteBooksId "999" mockBooks =
      ({ status := 404, body := Body.message "Book not found" }, mockBooks) ∧
    ∃ i b, mockBooks[i]? = some b ∧ parseIntJS "3" = some b.id ∧
      deleteBooksId "3" mockBooks =
        ({ status := 200, body := Body.message "Book deleted successfully" },
         mockBooks.eraseIdx i) :=
  ⟨(delete_spec_C5 "999" mockBooks).1 (by decide),
   (delete_spec_C5 "3" mockBooks).2 (by decide)⟩

/-- Claim C6: for every store state and every id matching no stored
record (including unparseable ids), PUT /books/:id yields 404 and
returns the store completely unchanged: no record is created or
modified. -/
theorem update_notfound_C6 {idStr : String} (body : BookBody) {s : List Book}
    (h : ∀ b ∈ s, parseIntJS idStr ≠ some b.id) :
    putBooksId idStr body s =
      ({ status := 404, body := Body.message "Book not found" }, s) :=
  putBooksId_notfound (findIndexById_eq_none.2 h)

/-- Witness for C6: PUT /books/999 on the seeded store is a 404 and the
store is returned unchanged. -/
theorem update_notfound_C6_witness :
    putBooksId "999"
        { title := some "Ghost", author := some "Nobody", category := none,
          photo := none, pdf := none } mockBooks =
      ({ status := 404, body := Body.message "Book not found" }, mockBooks) :=
  update_notfound_C6
    { title := some "Ghost", author := some "Nobody", category := none,
      photo := none, pdf := none } (by decide)

/-- Claim C7 counterexample: the non-empty title/author invariant is NOT
preserved by update. Starting from the seeded store (a reachable state),
PUT /books/1 with a body that omits every field is accepted and leaves
record 1 with an undefined (empty) title and author, so the reachable
state contains a record violating the invariant. -/
theorem invariant_C7_counterexample :
    Reachable (putBooksId "1"
      { title := none, author := none, category := none, photo := none,
        pdf := none } mockBooks).2 ∧
    ∃ b ∈ (putBooksId "1"
      { title := none, author := none, category := none, photo := none,
        pdf := none } mockBooks).2,
      ¬ truthy b.title = true ∧ ¬ truthy b.author = true :=
  ⟨Reachable.put _ _ _ Reachable.seed, by decide⟩

/-- Claim C7 as amended: every seeded record has a non-empty title and
author, and the invariant is preserved by create (which validates) and
by delete; update preserves it only when the request body itself carries
a non-empty title and author, since it overwrites both fields
unconditionally. -/
theorem invariant_C7_amended (body : BookBody) (idStr : String)
    {s : List Book} (h : goodStore s) :
    goodStore mockBooks ∧
    goodStore (postBooks body s).2 ∧
    goodStore (deleteBooksId idStr s).2 ∧
    (truthy body.title = true → truthy body.author = true →
      goodStore (putBooksId idStr body s).2) :=
  ⟨by unfold goodStore; decide, goodStore_post body h, goodStore_del idStr h,
   fun ht ha => goodStore_put idStr ht ha h⟩

/-- Witness for C7 (amended), at the seeded store with a valid body. -/
theorem invariant_C7_amended_witness :
    goodStore mockBooks ∧
    goodStore (postBooks { title := some "Dune", author := some "Herbert",
                           category := none, photo := none, pdf := none }
      mockBooks).2 ∧
    goodStore (deleteBooksId "1" mockBooks).2 ∧
    goodStore (putBooksId "1"
      { title := some "Dune", author := some "Herbert", category := none,
        photo := none, pdf := none } mockBooks).2 :=
  let T := invariant_C7_amended
    { title := some "Dune", author := some "Herbert", category := none,
      photo := none, pdf := none } "1" (by unfold goodStore; decide)
  ⟨T.1, T.2.1, T.2.2.1, T.2.2.2 (by decide) (by decide)⟩

/-- Claim C8: for every valid body (non-empty title and author), create
succeeds with 201 and a GET on the returned id (any path parameter that
parses to the new id) returns exactly the created record, equal in all
submitted fields: title and author as submitted, category/photo/pdf as
submitted or defaulted to the empty string. -/
theorem create_then_get_C8 {body : BookBody} {s : List Book} {idStr : String}
    (ht : truthy body.title = true) (ha : truthy body.author = true)
    (hp : parseIntJS idStr = some (maxId s + 1)) :
    ∃ nb, postBooks body s =
        ({ status := 201, body := Body.book nb }, s ++ [nb]) ∧
      getBooksId idStr (postBooks body s).2 =
        { status := 200, body := Body.book nb } ∧
      nb.title = body.title ∧ nb.author = body.author ∧
      nb.category = some (orEmptyStr body.category) ∧
      nb.photo = some (orEmptyStr body.photo) ∧
      nb.pdf = some (orEmptyStr body.pdf) := by
  refine ⟨newBookFor body s, postBooks_valid ht ha, ?_, rfl, rfl, rfl, rfl, rfl⟩
  rw [postBooks_valid ht ha]
  have h1 : ((s ++ [newBookFor body s]).find?
      fun b => parseIntJS idStr == some b.id) = some (newBookFor body s) := by
    rw [List.find?_append]
    have hn : (s.find? fun b => parseIntJS idStr == some b.id) = none := by
      rw [List.find?_eq_none]
      intro b hb
      rw [hp]
      simp only [beq_iff_eq, Option.some.injEq]
      have := mem_le_maxId hb
      omega
    have hs : ([newBookFor body s].find?
        fun b => parseIntJS idStr == some b.id) = some (newBookFor body s) := by
      apply List.find?_cons_of_pos
      rw [hp]
      simp [newBookFor]
    rw [hn, hs]
    rfl
  simp [getBooksId, getBooksIdFull, h1]

/-- Witness for C8: POST of Dune/Herbert on the seeded store yields a
record with id 5 and GET /books/5 returns it. -/
theorem create_then_get_C8_witness :
    ∃ nb, postBooks { title := some "Dune", author := some "Herbert",
                      category := none, photo := none, pdf := none }
        mockBooks = ({ status := 201, body := Body.book nb }, mockBooks ++ [nb]) ∧
      getBooksId "5" (postBooks { title := some "Dune", author := some "Herbert",
                                  category := none, photo := none, pdf := none }
        mockBooks).2 = { status := 200, body := Body.book nb } ∧
      nb.title = some "Dune" ∧ nb.author = some "Herbert" ∧
      nb.category = some "" ∧ nb.photo = some "" ∧ nb.pdf = some "" :=
  create_then_get_C8 (by decide) (by decide) (by decide)

/-- Claim C9: GET /books/:id parses the path parameter as an integer;
whenever the parse fails (NaN) or no stored record has the parsed id,
the handler answers 404 Book not found (not a 500 server error), in
both the fallback and the relational mode. -/
theorem get_notfound_C9 (idStr : String) (store : List Book) (db : RelDB) :
    ((∀ b ∈ store, parseIntJS idStr ≠ some b.id) →
      getBooksIdFull true idStr store db =
        { status := 404, body := Body.message "Book not found" }) ∧
    ((∀ b ∈ db.rows, parseIntJS idStr ≠ some b.id) →
      getBooksIdFull false idStr store db =
        { status := 404, body := Body.message "Book not found" }) ∧
    (parseIntJS idStr = none →
      getBooksIdFull true idStr store db =
        { status := 404, body := Body.message "Book not found" } ∧
      getBooksIdFull false idStr store db =
        { status := 404, body := Body.message "Book not found" }) := by
  have p1 : (∀ b ∈ store, parseIntJS idStr ≠ some b.id) →
      getBooksIdFull true idStr store db =
        { status := 404, body := Body.message "Book not found" } := by
    intro h
    have hf : (store.find? fun b => parseIntJS idStr == some b.id) = none := by
      rw [List.find?_eq_none]
      intro b hb
      simpa using h b hb
    simp [getBooksIdFull, hf]
  have p2 : (∀ b ∈ db.rows, parseIntJS idStr ≠ some b.id) →
      getBooksIdFull false idStr store db =
        { status := 404, body := Body.message "Book not found" } := by
    intro h
    have hf : dbSelectById (parseIntJS idStr) db.rows = [] := by
      unfold dbSelectById
      rw [List.filter_eq_nil_iff]
      intro b hb
      simpa using h b hb
    simp [getBooksIdFull, hf]
  exact ⟨p1, p2, fun hn =>
    ⟨p1 (fun b _ => by simp [hn]), p2 (fun b _ => by simp [hn])⟩⟩

/-- Witness for C9: an unparseable id (abc) is a 404 in both modes, and
a parseable but absent id (999) is a 404 in fallback mode. -/
theorem get_notfound_C9_witness :
    getBooksIdFull true "abc" mockBooks { rows := mockBooks, nextId := 5 } =
      { status := 404, body := Body.message "Book not found" } ∧
    getBooksIdFull false "abc" mockBooks { rows := mockBooks, nextId := 5 } =
      { status := 404, body := Body.message "Book not found" } ∧
    getBooksIdFull true "999" mockBooks { rows := mockBooks, nextId := 5 } =
      { status := 404, body := Body.message "Book not found" } :=
  ⟨(get_notfound_C9 "abc" mockBooks { rows := mockBooks, nextId := 5 }).1
     (by decide),
   (get_notfound_C9 "abc" mockBooks { rows := mockBooks, nextId := 5 }).2.1
     (by decide),
   (get_notfound_C9 "999" mockBooks { rows := mockBooks, nextId := 5 }).1
     (by decide)⟩

/-- Claim C10: in fallback mode, a successful update touches only the
record at the found index: the store keeps its length, every other
position is unchanged (hence the relative order of records is
preserved), the record at the found index becomes the body fields under
its original id, and the sequence of ids is unchanged. -/
theorem update_frame_C10 {idStr : String} {body : BookBody} {s : List Book}
    {i : Nat} (h : findIndexById (parseIntJS idStr) s = some i) :
    ∃ old, s[i]? = some old ∧
      (putBooksId idStr body s).2.length = s.length ∧
      (∀ j, j ≠ i → (putBooksId idStr body s).2[j]? = s[j]?) ∧
      (putBooksId idStr body s).2[i]? = some (replaceFields old body) ∧
      (replaceFields old body).id = old.id ∧
      (putBooksId idStr body s).2.map (fun b => b.id) =
        s.map (fun b => b.id) := by
  obtain ⟨old, hold, -⟩ := findIndexById_some h
  have heq := @putBooksId_found idStr body s i old h hold
  have hlt : i < s.length := by
    rcases List.getElem?_eq_some.1 hold with ⟨hl, -⟩
    exact hl
  refine ⟨old, hold, ?_, ?_, ?_, rfl, putBooksId_map_id idStr body s⟩
  · rw [heq]
    exact List.length_set s i _
  · intro j hj
    rw [heq]
    exact List.getElem?_set_ne (Ne.symm hj)
  · rw [heq]
    exact List.getElem?_set_eq_of_lt _ hlt

/-- Witness for C10: updating record 3 of the seeded store keeps the
length, the other three records and the id sequence. -/
theorem update_frame_C10_witness :
    ∃ old, mockBooks[2]? = some old ∧
      (putBooksId "3" { title := some "New", author := some "Author",
                        category := none, photo := none, pdf := none }
        mockBooks).2.length = mockBooks.length ∧
      (∀ j, j ≠ 2 →
        (putBooksId "3" { title := some "New", author := some "Author",
                          category := none, photo := none, pdf := none }
          mockBooks).2[j]? = mockBooks[j]?) ∧
      (putBooksId "3" { title := some "New", author := some "Author",
                        category := none, photo := none, pdf := none }
        mockBooks).2[2]? = some (replaceFields old
          { title := some "New", author := some "Author", category := none,
            photo := none, pdf := none }) ∧
      (replaceFields old { title := some "New", author := some "Author",
                           category := none, photo := none, pdf := none }).id
        = old.id ∧
      (putBooksId "3" { title := some "New", author := some "Author",
                        category := none, photo := none, pdf := none }
        mockBooks).2.map (fun b => b.id) = mockBooks.map (fun b => b.id) :=
  update_frame_C10 (by decide)
